import Mathlib

/-!
Verification of the search/relevance-ranking engine of the wiki backend
(flaskr/backend.py) against its natural-language specification.

The engine consists of:
* an edit-distance metric, imported by the backend from `search_algo` (that
  module's source is not in the repository snapshot; it is modelled below),
* `Backend.search_pages`, the relevance ranker (backend.py lines 185-240),
* the corpus accessors `Backend.get_wiki_page` (lines 19-42) and
  `Backend.get_all_page_names` (lines 44-66).

Numbers are modelled with ℚ (the spec's "real" arithmetic); Python's
machine integers are ℕ.
-/

namespace Wiki

/-- One step of the rolling-row Levenshtein dynamic program: given the
remaining characters `bs` of the second string, the tail `ps` of the previous
row, the diagonal entry `diag` (= d[i-1][j-1]) and the entry `left`
(= d[i][j-1]) just computed, produce the rest of the current row. -/
def levNextGo (ca : Char) : List Char → List Nat → Nat → Nat → List Nat
  | [], _, _, _ => []
  | _ :: _, [], _, _ => []
  | cb :: bs, pj :: ps, diag, left =>
    let cur := if ca == cb then diag else 1 + Nat.min diag (Nat.min left pj)
    cur :: levNextGo ca bs ps pj cur

/-- Compute the next row of the Levenshtein table from the previous row
`prev` when consuming character `ca` of the first string. -/
def levNext (ca : Char) (bs : List Char) (prev : List Nat) : List Nat :=
  match prev with
  | [] => []
  | p0 :: ps => (p0 + 1) :: levNextGo ca bs ps p0 (p0 + 1)

/-- Modelled from the spec: the module `flaskr/search_algo.py` that defines
the edit-distance metric is absent from the repository snapshot (only its
callers and tests are present).  This is the classic unit-cost Levenshtein
edit distance of spec section 4.1, computed with the rolling-row dynamic
program: `table[i][0] = i`, `table[0][j] = j`,
`table[i][j] = table[i-1][j-1]` when `a[i-1] == b[j-1]`, else
`1 + min` of the three neighbours; the result is `table[len a][len b]`. -/
def levenshtein (a b : String) : Nat :=
  (a.data.foldl (fun prev ca => levNext ca b.data prev)
    (List.range (b.data.length + 1))).getLastD 0

/-- Modelled from the spec: `search_algo.levenshtein_distance`, the function
`flaskr/backend.py` actually imports, is absent from the repository snapshot.
The repository's own regression test (`test_search_pages_relevance_score`,
which calls `levenshtein_distance` directly and asserts a relevance score of
exactly `0.25`) and the pinned search results of spec section 8 are
satisfied only when the metric is the Levenshtein distance normalized by the
length of the longer string, so that normalization is modelled here.  (The
raw integer metric of spec section 4.1 would give the pair
`("cat", "A cat is a domesticated carnivorous mammal")` a distance of 39 and
a relevance score of 9.2, contradicting both the test and section 8.) -/
def levenshtein_distance (a b : String) : ℚ :=
  (levenshtein a b : ℚ) / ((max a.length b.length : ℕ) : ℚ)

/-- A Python value that is either a list of strings or a plain string; the
dynamically-typed return of `Backend.get_all_page_names`, which yields the
string "Error: No pages found in bucket." on an empty bucket and a list of
page names otherwise. -/
inductive PagesValue where
  | strVal (s : String)
  | listVal (l : List String)
deriving DecidableEq

/-- Python `for x in v` over such a value: iterating a `str` yields its
characters as one-character strings; iterating a list yields its elements. -/
def pyForIn : PagesValue → List String
  | .strVal s => s.data.map Char.toString
  | .listVal l => l

/-- The duck-typed corpus accessor `wiki_searcher` consumed by
`search_pages`: anything exposing `get_all_page_names` and `get_wiki_page`
(in the tests, a `MagicMock`; by default, the `Backend` object itself). -/
structure WikiSearcher where
  get_all_page_names : PagesValue
  get_wiki_page : String → String

/-- Failure of an underlying Google Cloud Storage operation:
`google.cloud.exceptions.NotFound`, or any other exception with its
rendered message. -/
inductive GcsError where
  | notFound
  | other (msg : String)

/-- State of a `Backend` object relevant to the search engine: the blob
names in the `sdswiki_contents` bucket, and the (fallible) raw content
fetch performed by `get_blob`/`open`/`read` on that bucket. -/
structure Backend where
  pages_blobs : List String
  fetch : String → Except GcsError String

/-- Embedding of `Backend.get_wiki_page` (backend.py lines 19-42): the raw
fetch is attempted inside `try`; `except exceptions.NotFound` returns the
string `f"Error: Wiki page {name} not found."` and `except Exception as e`
returns `f"Error: {e}"`.  Note that, contrary to the docstring's "Raises"
section, no exception escapes. -/
def Backend.get_wiki_page (b : Backend) (name : String) : String :=
  match b.fetch name with
  | .ok content => content
  | .error .notFound => "Error: Wiki page " ++ name ++ " not found."
  | .error (.other e) => "Error: " ++ e

/-- Embedding of `Backend.get_all_page_names` (backend.py lines 44-66): if
`self.pages_blobs` is falsy (no blobs) the **string**
"Error: No pages found in bucket." is returned, otherwise the list of blob
names. -/
def Backend.get_all_page_names (b : Backend) : PagesValue :=
  if b.pages_blobs.isEmpty then .strVal "Error: No pages found in bucket."
  else .listVal b.pages_blobs

/-- The backend used as its own corpus accessor, as happens in
`search_pages` when `wiki_searcher is None`. -/
def Backend.toSearcher (b : Backend) : WikiSearcher :=
  { get_all_page_names := b.get_all_page_names
    get_wiki_page := b.get_wiki_page }

/-- The combined raw relevance score of backend.py line 225:
`0.7 * content_similarity + 0.3 * title_distance`. -/
def relevance_score (search_content page_title page_content : String) : ℚ :=
  7/10 * levenshtein_distance search_content page_content
    + 3/10 * levenshtein_distance search_content page_title

/-- The per-page relevance score as computed inside the loop of
`search_pages` (backend.py lines 220-228): the combined raw score, scaled
by the length of the search string (line 228). -/
def pageScore (ws : WikiSearcher) (search_content page_title : String) : ℚ :=
  relevance_score search_content page_title (ws.get_wiki_page page_title)
    / (search_content.length : ℚ)

/-- The `search_results` list built by the loop of backend.py lines 212-232:
for each enumerated page title, the page is scored and the pair
`(page_title, relevance_score)` is appended iff the score is at most the
adjusted threshold `max_relevance_score / len(search_content)` (line 210). -/
def search_results_of (ws : WikiSearcher) (search_content : String)
    (max_relevance_score : ℚ) : List (String × ℚ) :=
  (pyForIn ws.get_all_page_names).filterMap fun page_title =>
    if pageScore ws search_content page_title
        ≤ max_relevance_score / (search_content.length : ℚ) then
      some (page_title, pageScore ws search_content page_title)
    else none

/-- The comparison underlying `search_results.sort(key=lambda x: x[1])`
(backend.py line 235): order scored pairs by their second component. -/
def scoreLe (x y : String × ℚ) : Prop := x.2 ≤ y.2

instance : DecidableRel scoreLe :=
  fun x y => inferInstanceAs (Decidable (x.2 ≤ y.2))

instance : IsTotal (String × ℚ) scoreLe := ⟨fun x y => le_total x.2 y.2⟩

instance : IsTrans (String × ℚ) scoreLe := ⟨fun _ _ _ h h' => le_trans h h'⟩

/-- Embedding of `Backend.search_pages` (backend.py lines 185-240) for a
given corpus accessor `ws`: short-circuit on an empty search string
(lines 206-207), build the filtered scored list, sort it ascending by score
and return the titles (lines 234-240).  Python's `list.sort` is a stable
ascending sort, which is exactly `List.insertionSort scoreLe`. -/
def WikiSearcher.search_pages (ws : WikiSearcher) (search_content : String)
    (max_relevance_score : ℚ) : List String :=
  if search_content.length < 1 then []
  else
    (List.insertionSort scoreLe
      (search_results_of ws search_content max_relevance_score)).map Prod.fst

/-- Embedding of the full `Backend.search_pages` entry point: when the
`wiki_searcher` argument is `None` the backend itself is used as the corpus
accessor (backend.py lines 203-204). -/
def Backend.search_pages (b : Backend) (search_content : String)
    (max_relevance_score : ℚ) (wiki_searcher : Option WikiSearcher) :
    List String :=
  (wiki_searcher.getD b.toSearcher).search_pages search_content
    max_relevance_score

/-! ### Concrete corpora from the repository's tests -/

/-- The four-animal corpus of `test_search_pages_result`. -/
def animalSearcher : WikiSearcher :=
  { get_all_page_names := .listVal ["Cat", "Dog", "Bird", "Fish"]
    get_wiki_page := fun t =>
      if t = "Cat" then "A cat is a domesticated carnivorous mammal"
      else if t = "Dog" then "A dog is a domesticated carnivorous mammal"
      else if t = "Bird" then
        "Birds, also known as Aves, are a group of warm-blooded vertebrates"
      else if t = "Fish" then
        "Fish are aquatic animals that breathe through gills"
      else "" }

/-- The corpus of `test_search_pages_result_order`: four titles, one body. -/
def catOrderSearcher : WikiSearcher :=
  { get_all_page_names := .listVal ["Cat11", "Cat1", "Cat", "Cat111"]
    get_wiki_page := fun _ => "A cat is a domesticated carnivorous mammal" }

/-- A one-page corpus whose only page's title and content both equal the
query string "cat", so its relevance score is exactly 0. -/
def selfMatchSearcher : WikiSearcher :=
  { get_all_page_names := .listVal ["cat"]
    get_wiki_page := fun _ => "cat" }

/-- A two-page corpus with equal-score pages: the titles "xy" and "yx" are
at the same edit distance from the query "ab" and share one body. -/
def tieSearcher : WikiSearcher :=
  { get_all_page_names := .listVal ["xy", "yx"]
    get_wiki_page := fun _ => "ab" }

/-- A backend whose corpus enumeration lists the page "Cat" but whose
content fetch fails with a NotFound-class error (the race with concurrent
deletion described in the spec). -/
def missingCatBackend : Backend :=
  { pages_blobs := ["Cat"], fetch := fun _ => .error .notFound }

/-- A backend whose pages bucket contains no blobs at all. -/
def emptyBucketBackend : Backend :=
  { pages_blobs := [], fetch := fun _ => .error .notFound }

/-! ### Helper lemmas -/

theorem levenshtein_distance_nonneg (a b : String) :
    0 ≤ levenshtein_distance a b :=
  div_nonneg (Nat.cast_nonneg _) (Nat.cast_nonneg _)

theorem relevance_score_nonneg (q t c : String) : 0 ≤ relevance_score q t c :=
  add_nonneg
    (mul_nonneg (by norm_num) (levenshtein_distance_nonneg _ _))
    (mul_nonneg (by norm_num) (levenshtein_distance_nonneg _ _))

theorem pageScore_nonneg (ws : WikiSearcher) (q t : String) :
    0 ≤ pageScore ws q t :=
  div_nonneg (relevance_score_nonneg _ _ _) (Nat.cast_nonneg _)

theorem foldl_levNext_nil_aux : ∀ (l : List Char) (k : Nat),
    l.foldl (fun prev ca => levNext ca [] prev) [k] = [k + l.length]
  | [], _ => by simp
  | c :: l, k => by
    rw [List.foldl_cons]
    show l.foldl (fun prev ca => levNext ca [] prev) [k + 1]
        = [k + (c :: l).length]
    rw [foldl_levNext_nil_aux l (k + 1)]
    simp only [List.length_cons, List.cons.injEq, and_true]
    omega

theorem snd_eq_pageScore_of_mem {ws : WikiSearcher} {q : String} {θ : ℚ}
    {p : String × ℚ} (hp : p ∈ search_results_of ws q θ) :
    p.2 = pageScore ws q p.1 := by
  simp only [search_results_of, List.mem_filterMap] at hp
  obtain ⟨a, -, ha⟩ := hp
  by_cases h : pageScore ws q a ≤ θ / (q.length : ℚ)
  · rw [if_pos h] at ha
    cases ha
    exact rfl
  · rw [if_neg h] at ha
    exact absurd ha (by simp)

theorem mem_search_results_iff {ws : WikiSearcher} {q : String} {θ : ℚ}
    {p : String × ℚ} :
    p ∈ search_results_of ws q θ ↔
      p.1 ∈ pyForIn ws.get_all_page_names ∧
        pageScore ws q p.1 ≤ θ / (q.length : ℚ) ∧
        p.2 = pageScore ws q p.1 := by
  simp only [search_results_of, List.mem_filterMap]
  constructor
  · rintro ⟨a, hmem, ha⟩
    by_cases h : pageScore ws q a ≤ θ / (q.length : ℚ)
    · rw [if_pos h] at ha
      cases ha
      exact ⟨hmem, h, rfl⟩
    · rw [if_neg h] at ha
      exact absurd ha (by simp)
  · rintro ⟨hmem, h, hsnd⟩
    refine ⟨p.1, hmem, ?_⟩
    rw [if_pos h, ← hsnd]

/-! ### Claims -/

set_option maxRecDepth 100000

/-- C3: on the four-animal corpus of the tests, searching for "cat" with
threshold 0.8955 returns exactly the one-element list ["Cat"] — whatever
backend object the call goes through, since the explicit corpus accessor
overrides it. -/
theorem search_cat_animal_corpus (b : Backend) :
    b.search_pages "cat" (8955/10000) (some animalSearcher) = ["Cat"] := by
  show animalSearcher.search_pages "cat" (8955/10000) = ["Cat"]
  with_unfolding_all decide

/-- C6: for query "cat" against title "Cat" and content
"A cat is a domesticated carnivorous mammal", the ranker's relevance score
(0.7 * contentDist + 0.3 * titleDist, scaled by the query length) is
exactly 0.25. -/
theorem relevance_score_cat_regression :
    relevance_score "cat" "Cat" "A cat is a domesticated carnivorous mammal"
      / (("cat" : String).length : ℚ) = 1/4 := by
  with_unfolding_all decide

/-- C1: the claim says a NotFound-class failure while fetching a page's
content must make the whole search fail, with no placeholder substituted
and no result list returned.  The code does the opposite: on a backend
whose enumeration lists "Cat" but whose every content fetch raises
NotFound, `get_wiki_page` swallows the exception into the placeholder
string "Error: Wiki page Cat not found." (contradicting its own docstring,
which documents `Raises: exceptions.NotFound`), and `search_pages` scores
that placeholder and returns the result list ["Cat"]. -/
theorem notfound_swallowed_search_returns_list :
    missingCatBackend.get_wiki_page "Cat"
        = "Error: Wiki page Cat not found." ∧
    missingCatBackend.search_pages "cat" 1 none = ["Cat"] := by
  constructor
  · with_unfolding_all decide
  · with_unfolding_all decide

/-- C4: the titles returned by search are sorted in ascending order of the
pages' relevance scores (lowest score, i.e. best match, first); in
particular on the corpus Cat11, Cat1, Cat, Cat111 with identical bodies,
searching "cat" with threshold 0.8955 returns
["Cat", "Cat1", "Cat11", "Cat111"]. -/
theorem search_sorted_by_score_and_order_example :
    (∀ (ws : WikiSearcher) (q : String) (θ : ℚ),
      (ws.search_pages q θ).Pairwise
        (fun t₁ t₂ => pageScore ws q t₁ ≤ pageScore ws q t₂)) ∧
    catOrderSearcher.search_pages "cat" (8955/10000)
      = ["Cat", "Cat1", "Cat11", "Cat111"] := by
  constructor
  · intro ws q θ
    rw [WikiSearcher.search_pages]
    split
    · exact List.Pairwise.nil
    · rw [List.pairwise_map]
      have hs : (List.insertionSort scoreLe
          (search_results_of ws q θ)).Pairwise scoreLe :=
        List.sorted_insertionSort scoreLe _
      refine hs.imp_of_mem ?_
      intro p₁ p₂ h₁ h₂ hle
      have e₁ := snd_eq_pageScore_of_mem ((List.mem_insertionSort scoreLe).mp h₁)
      have e₂ := snd_eq_pageScore_of_mem ((List.mem_insertionSort scoreLe).mp h₂)
      rw [scoreLe, e₁, e₂] at hle
      exact hle
  · with_unfolding_all decide

/-- C5: searching with the empty query returns the empty list for every
threshold, every backend and every optional corpus accessor; since the
result is the same whatever accessor is supplied, the accessor is never
consulted (neither `get_all_page_names` nor `get_wiki_page` is invoked),
which is this pure embedding's rendering of "no corpus access performed". -/
theorem empty_query_returns_empty (b : Backend) (θ : ℚ)
    (wso : Option WikiSearcher) : b.search_pages "" θ wso = [] := rfl

/-- C7 counterexample: the claim says every `maxScore ≤ 0` makes search
reject every page; but with `maxScore = 0` a page whose title and content
both equal the query has relevance score 0 ≤ 0/len(query) and is returned,
so the result list is not empty. -/
theorem maxscore_zero_includes_exact_match :
    (0 : ℚ) ≤ 0 ∧ selfMatchSearcher.search_pages "cat" 0 = ["cat"] := by
  constructor
  · exact le_refl 0
  · with_unfolding_all decide

/-- C7 amended: a strictly negative threshold rejects every page (every
relevance score is nonnegative while the adjusted threshold is negative),
so search returns the empty list, raising no error; at threshold exactly 0
pages scoring exactly 0 can still be returned. -/
theorem negative_threshold_returns_empty (b : Backend)
    (wso : Option WikiSearcher) (q : String) (θ : ℚ) (hθ : θ < 0) :
    b.search_pages q θ wso = [] := by
  rw [Backend.search_pages, WikiSearcher.search_pages]
  split
  · rfl
  · rename_i hlen
    have hq : (0 : ℚ) < ((q.length : ℕ) : ℚ) := by
      rw [Nat.cast_pos]
      omega
    have hempty : search_results_of ((wso.getD b.toSearcher)) q θ = [] := by
      rw [search_results_of, List.filterMap_eq_nil_iff]
      intro a _
      rw [if_neg]
      exact not_le.mpr
        (lt_of_lt_of_le (div_neg_of_neg_of_pos hθ hq) (pageScore_nonneg _ _ _))
    rw [hempty]
    rfl

/-- C7 amended, witness: at threshold -1 on the four-animal corpus the
search returns the empty list. -/
theorem negative_threshold_returns_empty_witness :
    (-1 : ℚ) < 0 ∧
    missingCatBackend.search_pages "cat" (-1) (some animalSearcher) = [] :=
  ⟨by norm_num,
    negative_threshold_returns_empty missingCatBackend (some animalSearcher)
      "cat" (-1) (by norm_num)⟩

/-- C2: for a non-empty query, a page title appears in the search output
iff it is enumerated by the corpus accessor and its per-length-normalized
score (0.7 * contentDist + 0.3 * titleDist) / len(query) is at most the
per-length-normalized threshold maxScore / len(query); and that normalized
comparison is equivalent to comparing the raw combined distance against
the unmodified threshold. -/
theorem inclusion_test_normalized_iff (ws : WikiSearcher) (q : String)
    (θ : ℚ) (t : String) (hq : 1 ≤ q.length) :
    (t ∈ ws.search_pages q θ ↔
      t ∈ pyForIn ws.get_all_page_names ∧
        pageScore ws q t ≤ θ / (q.length : ℚ)) ∧
    (pageScore ws q t ≤ θ / (q.length : ℚ) ↔
      relevance_score q t (ws.get_wiki_page t) ≤ θ) := by
  have hq' : (0 : ℚ) < (q.length : ℚ) := by
    rw [Nat.cast_pos]
    omega
  constructor
  · rw [WikiSearcher.search_pages, if_neg (by omega)]
    constructor
    · intro ht
      obtain ⟨p, hp, hfst⟩ := List.mem_map.mp ht
      obtain ⟨hmem, hsc, -⟩ :=
        mem_search_results_iff.mp ((List.mem_insertionSort scoreLe).mp hp)
      rw [hfst] at hmem hsc
      exact ⟨hmem, hsc⟩
    · rintro ⟨hmem, hsc⟩
      exact List.mem_map.mpr ⟨(t, pageScore ws q t),
        (List.mem_insertionSort scoreLe).mpr
          (mem_search_results_iff.mpr ⟨hmem, hsc, rfl⟩), rfl⟩
  · rw [pageScore]
    exact div_le_div_iff_of_pos_right hq'

/-- C2, witness: the equivalences instantiated on the four-animal corpus
at query "cat", threshold 0.8955 and page "Cat". -/
theorem inclusion_test_normalized_iff_witness :
    1 ≤ ("cat" : String).length ∧
    (("Cat" ∈ animalSearcher.search_pages "cat" (8955/10000) ↔
      "Cat" ∈ pyForIn animalSearcher.get_all_page_names ∧
        pageScore animalSearcher "cat" "Cat"
          ≤ (8955/10000) / ((("cat" : String).length : ℕ) : ℚ)) ∧
    (pageScore animalSearcher "cat" "Cat"
        ≤ (8955/10000) / ((("cat" : String).length : ℕ) : ℚ) ↔
      relevance_score "cat" "Cat" (animalSearcher.get_wiki_page "Cat")
        ≤ 8955/10000)) :=
  ⟨by decide,
    inclusion_test_normalized_iff animalSearcher "cat" (8955/10000) "Cat"
      (by decide)⟩

/-- C9: when the pages bucket holds no blobs, `get_all_page_names` returns
the string "Error: No pages found in bucket." instead of an empty list;
`search_pages` called without an explicit accessor then iterates over that
string character by character, scoring each one-character string as a page
title, and (as the concrete empty-bucket backend shows at threshold 1000)
returns a non-empty result list rather than an empty result or an error. -/
theorem empty_bucket_iterates_error_string (b : Backend)
    (hb : b.pages_blobs = []) :
    b.get_all_page_names = .strVal "Error: No pages found in bucket." ∧
    pyForIn b.get_all_page_names =
      ["E", "r", "r", "o", "r", ":", " ", "N", "o", " ", "p", "a", "g",
       "e", "s", " ", "f", "o", "u", "n", "d", " ", "i", "n", " ", "b",
       "u", "c", "k", "e", "t", "."] ∧
    emptyBucketBackend.search_pages "cat" 1000 none ≠ [] := by
  have h1 : b.get_all_page_names
      = .strVal "Error: No pages found in bucket." := by
    rw [Backend.get_all_page_names, hb]
    rfl
  refine ⟨h1, ?_, ?_⟩
  · rw [h1]
    with_unfolding_all decide
  · with_unfolding_all decide

/-- C9, witness: the statement instantiated at the concrete backend whose
pages bucket is empty. -/
theorem empty_bucket_iterates_error_string_witness :
    emptyBucketBackend.pages_blobs = [] ∧
    (emptyBucketBackend.get_all_page_names
        = .strVal "Error: No pages found in bucket." ∧
    pyForIn emptyBucketBackend.get_all_page_names =
      ["E", "r", "r", "o", "r", ":", " ", "N", "o", " ", "p", "a", "g",
       "e", "s", " ", "f", "o", "u", "n", "d", " ", "i", "n", " ", "b",
       "u", "c", "k", "e", "t", "."] ∧
    emptyBucketBackend.search_pages "cat" 1000 none ≠ []) :=
  ⟨rfl, empty_bucket_iterates_error_string emptyBucketBackend rfl⟩

/-- C10: the ranking sort is stable: two enumerated pages that both pass
the threshold and have equal relevance scores appear in the output in
their corpus-enumeration order (here expressed by sublists: whenever
title t₁ precedes title t₂ in the enumeration, they appear in that same
order in the output).  The output is deterministic for a fixed corpus
ordering because the embedding is a pure function of the accessor. -/
theorem search_stable_on_ties (ws : WikiSearcher) (q : String) (θ : ℚ)
    (t₁ t₂ : String) (hq : 1 ≤ q.length)
    (hsub : [t₁, t₂].Sublist (pyForIn ws.get_all_page_names))
    (h₁ : pageScore ws q t₁ ≤ θ / (q.length : ℚ))
    (h₂ : pageScore ws q t₂ ≤ θ / (q.length : ℚ))
    (heq : pageScore ws q t₁ = pageScore ws q t₂) :
    [t₁, t₂].Sublist (ws.search_pages q θ) := by
  have hfm := List.Sublist.filterMap
    (fun page_title =>
      if pageScore ws q page_title ≤ θ / (q.length : ℚ) then
        some (page_title, pageScore ws q page_title)
      else none) hsub
  have e₁ : (fun page_title =>
      if pageScore ws q page_title ≤ θ / (q.length : ℚ) then
        some (page_title, pageScore ws q page_title)
      else none) t₁ = some (t₁, pageScore ws q t₁) := if_pos h₁
  have e₂ : (fun page_title =>
      if pageScore ws q page_title ≤ θ / (q.length : ℚ) then
        some (page_title, pageScore ws q page_title)
      else none) t₂ = some (t₂, pageScore ws q t₂) := if_pos h₂
  rw [@List.filterMap_cons_some _ _ _ t₁ [t₂] _ e₁,
    @List.filterMap_cons_some _ _ _ t₂ [] _ e₂,
    List.filterMap_nil] at hfm
  have hfm' : [(t₁, pageScore ws q t₁), (t₂, pageScore ws q t₂)].Sublist
      (search_results_of ws q θ) := by
    rw [search_results_of]
    exact hfm
  have hpair := List.pair_sublist_insertionSort
    (show scoreLe (t₁, pageScore ws q t₁) (t₂, pageScore ws q t₂) from
      le_of_eq heq) hfm'
  have hmap := hpair.map Prod.fst
  rw [WikiSearcher.search_pages, if_neg (by omega)]
  exact hmap

/-- C10, witness: a two-page corpus whose pages "xy" and "yx" share the
content "ab" and thus have identical scores against the query "ab"; with
threshold 10 both are kept and they stay in enumeration order. -/
theorem search_stable_on_ties_witness :
    1 ≤ ("ab" : String).length ∧
    ["xy", "yx"].Sublist (pyForIn tieSearcher.get_all_page_names) ∧
    pageScore tieSearcher "ab" "xy"
      ≤ 10 / ((("ab" : String).length : ℕ) : ℚ) ∧
    pageScore tieSearcher "ab" "yx"
      ≤ 10 / ((("ab" : String).length : ℕ) : ℚ) ∧
    pageScore tieSearcher "ab" "xy" = pageScore tieSearcher "ab" "yx" ∧
    ["xy", "yx"].Sublist (tieSearcher.search_pages "ab" 10) := by
  have h₁ : pageScore tieSearcher "ab" "xy"
      ≤ 10 / ((("ab" : String).length : ℕ) : ℚ) := by
    with_unfolding_all decide
  have h₂ : pageScore tieSearcher "ab" "yx"
      ≤ 10 / ((("ab" : String).length : ℕ) : ℚ) := by
    with_unfolding_all decide
  have heq : pageScore tieSearcher "ab" "xy"
      = pageScore tieSearcher "ab" "yx" := by
    with_unfolding_all decide
  exact ⟨by decide, List.Sublist.refl _, h₁, h₂, heq,
    search_stable_on_ties tieSearcher "ab" 10 "xy" "yx" (by decide)
      (List.Sublist.refl _) h₁ h₂ heq⟩

/-- C8: when either argument of the edit-distance metric is the empty
string, the distance equals the length of the other string. -/
theorem levenshtein_empty_left_right (s : String) :
    levenshtein "" s = s.length ∧ levenshtein s "" = s.length := by
  constructor
  · show (List.range (s.data.length + 1)).getLastD 0 = s.length
    rw [List.range_succ, List.getLastD_concat]
    rfl
  · show (s.data.foldl (fun prev ca => levNext ca [] prev) [0]).getLastD 0
        = s.length
    rw [foldl_levNext_nil_aux s.data 0]
    show 0 + s.data.length = s.data.length
    omega

end Wiki
